import Mathlib

/-!
Verification of the OCP web viewer communication core against its design
specification.

The development shallowly embeds `src/ocp_web/static/js/comms.js` (the
`Comms` WebSocket wrapper class) and the scene payload of
`src/unnamed/part_002` (the `logo` function).  JavaScript strings that
travel on the channel are modelled as `List Char`, so that `data[0]`,
`data.substring(2)` and `data.length` become `head`, `drop 2` and
`length`.  The external `JSON.parse` library routine is a parameter
`jp : List Char → Option J` of the message parser; `JSON.stringify` is
modelled only as far as the code's behaviour depends on it.  Stateful
methods are embedded as explicit state-passing functions which return the
successor state together with the list of frames written to the socket.

The Geometry Codec decoder of spec §4.1 has no source file under `src/`;
it is modelled from the spec's words (see `decodeBuffer`) and is used
only to settle the buffer-validation claim about the `logo` payload.
-/

/-- The `WebSocket.CONNECTING` ready-state constant (value 0). -/
def wsCONNECTING : Nat := 0

/-- The `WebSocket.OPEN` ready-state constant (value 1). -/
def wsOPEN : Nat := 1

/-- The `WebSocket.CLOSING` ready-state constant (value 2). -/
def wsCLOSING : Nat := 2

/-- The `WebSocket.CLOSED` ready-state constant (value 3). -/
def wsCLOSED : Nat := 3

/-- The observable part of a browser `WebSocket` object: its
`readyState` field, which `Comms.send` consults. -/
structure WSState where
  readyState : Nat
deriving DecidableEq, Repr

/-- The fields of the `Comms` class set up by its constructor
(`comms.js` lines 5-16): host, port, the optional socket object
(`this.ws`, `null` initially), the reconnect counters and delay, the
pending message queue, and the `isConnected` flag. -/
structure CommsState where
  host : String
  port : Nat
  ws : Option WSState
  reconnectAttempts : Nat
  maxReconnectAttempts : Nat
  reconnectDelay : Nat
  messageQueue : List (List Char)
  isConnected : Bool
deriving DecidableEq, Repr

namespace Comms

/-- The guard of `send` (`comms.js` line 104):
`this.isConnected && this.ws && this.ws.readyState === WebSocket.OPEN`. -/
def sendReady (s : CommsState) : Bool :=
  s.isConnected &&
    (match s.ws with
     | some w => w.readyState == wsOPEN
     | none => false)

/-- `send(message)` (`comms.js` lines 103-111).  When the guard holds the
frame is written to the socket (`this.ws.send(message)`); otherwise it is
pushed onto `this.messageQueue`.  The second component collects the
frames written to the socket by this call. -/
def send (s : CommsState) (message : List Char) :
    CommsState × List (List Char) :=
  if sendReady s then
    (s, [message])
  else
    ({ s with messageQueue := s.messageQueue ++ [message] }, [])

/-- A JavaScript call of `send` with two arguments, as written in
`sendStatus` and in the `onopen` handler.  `send` declares a single
parameter `message`, so the language discards the second argument; the
call behaves as `send` applied to the first argument alone. -/
def sendTwoArg (s : CommsState) (message : List Char)
    (discarded : List Char) : CommsState × List (List Char) :=
  send s message

/-- Left and right curly-brace characters, by code point. -/
def lbrace : Char := Char.ofNat 123

/-- Right curly brace, by code point. -/
def rbrace : Char := Char.ofNat 125

/-- The string built by `JSON.stringify({command: 'status', text:
message})` inside `sendStatus` (`comms.js` lines 96-101), modelled
without escaping of the embedded text (the value is discarded by the
callee, see `sendTwoArg`). -/
def stringifyStatus (message : List Char) : List Char :=
  [lbrace] ++ String.data "\"command\":\"status\",\"text\":\"" ++
    message ++ ['"'] ++ [rbrace]

/-- `sendStatus(message)` (`comms.js` lines 96-101): the call
`this.send('U:', JSON.stringify({command: 'status', text: message}))`.
Because `send` has one parameter, the stringified object is the
discarded argument and only the two-character frame `U:` reaches
`send`. -/
def sendStatus (s : CommsState) (message : List Char) :
    CommsState × List (List Char) :=
  sendTwoArg s ['U', ':'] (stringifyStatus message)

/-- The `onopen` handler (`comms.js` lines 22-35): set `isConnected`,
reset `reconnectAttempts`, send the registration frame via
`this.send('L:', '')`, then loop `while (this.messageQueue.length > 0)`
shifting each queued frame and writing it with `this.ws.send`.  Returns
the successor state and the frames written to the socket, in order. -/
def handleOpen (s : CommsState) : CommsState × List (List Char) :=
  let s1 := { s with isConnected := true, reconnectAttempts := 0 }
  let r := sendTwoArg s1 ['L', ':'] []
  ({ r.1 with messageQueue := [] }, r.2 ++ r.1.messageQueue)

/-- `attemptReconnect` (`comms.js` lines 113-124).  When
`reconnectAttempts < maxReconnectAttempts` the counter is incremented
and one timer is armed with delay
`this.reconnectDelay * this.reconnectAttempts` (read after the
increment); otherwise nothing is scheduled.  The second component is
the armed delay in milliseconds, if any. -/
def attemptReconnect (s : CommsState) : CommsState × Option Nat :=
  if s.reconnectAttempts < s.maxReconnectAttempts then
    let s1 := { s with reconnectAttempts := s.reconnectAttempts + 1 }
    (s1, some (s.reconnectDelay * s1.reconnectAttempts))
  else
    (s, none)

/-- The `onclose` handler (`comms.js` lines 50-54): clear `isConnected`
and call `attemptReconnect`. -/
def handleClose (s : CommsState) : CommsState × Option Nat :=
  attemptReconnect { s with isConnected := false }

/-- The `onerror` handler (`comms.js` lines 56-59): clear
`isConnected`. -/
def handleError (s : CommsState) : CommsState :=
  { s with isConnected := false }

/-- `close()` (`comms.js` lines 126-132): clear `isConnected`, close the
socket and null out `this.ws`. -/
def close (s : CommsState) : CommsState :=
  { s with isConnected := false, ws := none }

/-- `getMessageType(typeChar)` (`comms.js` lines 83-94): the seven-entry
lookup table with fallback `'unknown'`. -/
def getMessageType (typeChar : Char) : String :=
  if typeChar = 'C' then "command"
  else if typeChar = 'D' then "data"
  else if typeChar = 'S' then "config"
  else if typeChar = 'U' then "update"
  else if typeChar = 'L' then "listen"
  else if typeChar = 'B' then "backend"
  else if typeChar = 'R' then "response"
  else "unknown"

/-- The object returned by `parseMessage`: either
`{type, data: parsed}` when `JSON.parse` succeeded on the content, or
`{type, text: content}` when it threw. -/
inductive ParsedMsg (J : Type) where
  | json (type : String) (data : J)
  | text (type : String) (content : List Char)
deriving DecidableEq, Repr

/-- The `type` field of a parsed message object. -/
def ParsedMsg.kind {J : Type} : ParsedMsg J → String
  | .json t _ => t
  | .text t _ => t

/-- `parseMessage(data)` (`comms.js` lines 67-81).  Returns `null` for
data shorter than two characters; otherwise reads the discriminator
`data[0]` and the content `data.substring(2)`, attempting `JSON.parse`
(the parameter `jp`) on the content. -/
def parseMessage {J : Type} (jp : List Char → Option J) :
    List Char → Option (ParsedMsg J)
  | [] => none
  | [_] => none
  | t :: _ :: content =>
    match jp content with
    | some parsed => some (.json (getMessageType t) parsed)
    | none => some (.text (getMessageType t) content)

/-- The observable outcome of the `onmessage` handler: the values passed
to `window.postMessage` and whether the handler closed the connection. -/
structure OnMessageResult (J : Type) where
  posted : List (Option (ParsedMsg J))
  closed : Bool
deriving DecidableEq, Repr

/-- The `onmessage` handler (`comms.js` lines 37-48) on string data:
computes `parseMessage(data)` and posts the result to the window.  The
surrounding `try`/`catch` only logs, and the handler never closes the
socket. -/
def onmessage {J : Type} (jp : List Char → Option J) (d : List Char) :
    OnMessageResult J :=
  { posted := [parseMessage jp d], closed := false }

/-- A concrete instantiation of the external `JSON.parse` parameter that
fails on every input, used to evaluate the handlers on payloads that are
not structured data. -/
def jpNone : List Char → Option Unit := fun _ => none

end Comms

/-! ## Geometry codec (spec §4.1) and the `logo` scene payload -/

/-- Value of a standard base64 alphabet character, `none` for characters
outside the alphabet (`=` padding is handled by `b64Decode`). -/
def b64Val (c : Char) : Option Nat :=
  if 'A' ≤ c ∧ c ≤ 'Z' then some (c.toNat - 65)
  else if 'a' ≤ c ∧ c ≤ 'z' then some (c.toNat - 97 + 26)
  else if '0' ≤ c ∧ c ≤ '9' then some (c.toNat - 48 + 52)
  else if c = '+' then some 62
  else if c = '/' then some 63
  else none

/-- Standard base64 decoding of a character stream into bytes: groups of
four alphabet characters yield three bytes; a final group may end in one
or two `=` padding characters, yielding two bytes or one. -/
def b64Decode : List Char → Option (List Nat)
  | [] => some []
  | a :: b :: c :: d :: rest =>
    match b64Val a, b64Val b with
    | some va, some vb =>
      if c = '=' ∧ d = '=' ∧ rest = [] then
        some [va * 4 + vb / 16]
      else
        match b64Val c with
        | some vc =>
          if d = '=' ∧ rest = [] then
            some [va * 4 + vb / 16, (vb % 16) * 16 + vc / 4]
          else
            match b64Val d, b64Decode rest with
            | some vd, some bytes =>
              some ([va * 4 + vb / 16, (vb % 16) * 16 + vc / 4,
                     (vc % 4) * 64 + vd] ++ bytes)
            | _, _ => none
        | none => none
    | _, _ => none
  | _ => none

/-- Byte size of one element of a declared numeric type: 4 for the
32-bit types `float32` and `int32` of spec §4.1, undefined otherwise. -/
def elementSize (dtype : String) : Option Nat :=
  if dtype = "float32" then some 4
  else if dtype = "int32" then some 4
  else none

/-- Result of decoding one transport buffer. -/
inductive DecodeResult where
  | ok (bytes : List Nat)
  | malformedBuffer
deriving DecidableEq, Repr

/-- Modelled from the spec: the Geometry Codec decoder has no source
file under `src/`.  Spec §4.1: each numeric array arrives as an encoded
byte payload for a declared element type, and "decoding validates that
payload length is an exact multiple of the element size for the declared
type and fails with a `MalformedBuffer` error otherwise (never silently
truncates or pads)". -/
def decodeBuffer (dtype : String) (buf : List Char) : DecodeResult :=
  match elementSize dtype, b64Decode buf with
  | some sz, some bytes =>
    if bytes.length % sz = 0 then .ok bytes else .malformedBuffer
  | _, _ => .malformedBuffer

/-- One encoded buffer record of the `logo` payload
(`src/unnamed/part_002`): `{buffer, codec, dtype}`. -/
structure BufferRec where
  buffer : List Char
  codec : String
  dtype : String
deriving DecidableEq, Repr

/-- One entry of the `instances` array of the `logo` payload: five
encoded buffers. -/
structure InstanceRec where
  vertices : BufferRec
  obj_vertices : BufferRec
  normals : BufferRec
  triangles : BufferRec
  edges : BufferRec
deriving DecidableEq, Repr

/-- A part of the `logo` assembly: a shape reference `ref` into the
instance table, a visibility `state` array, an `id` and a `name`. -/
structure PartRec where
  ref : Nat
  state : List Bool
  id : String
  name : String
deriving DecidableEq, Repr

/-- The bounding box `bb` of the `logo` payload. -/
structure BBox where
  xmin : Int
  xmax : Int
  ymin : Int
  ymax : Int
  zmin : Int
  zmax : Int
deriving DecidableEq, Repr

/-- The `data.shapes` object of the `logo` payload: the assembly's
`parts`, the `instances` table and the bounding box. -/
structure ShapesRec where
  parts : List PartRec
  instances : List InstanceRec
  bb : BBox
deriving DecidableEq, Repr

/-- The placeholder buffer record `{buffer: "AQAAAAAA", codec: "b64",
dtype}` used five times by `logo()`. -/
def logoBuffer (dtype : String) : BufferRec :=
  { buffer := String.data "AQAAAAAA", codec := "b64", dtype := dtype }

/-- The single part of the `logo` assembly (`src/unnamed/part_002`
lines 15-24). -/
def logoPart : PartRec :=
  { ref := 0, state := [true, true], id := "logo", name := "OCP Logo" }

/-- The single entry of the `instances` array of the `logo` payload
(`src/unnamed/part_002` lines 26-54). -/
def logoInstance : InstanceRec :=
  { vertices := logoBuffer "float32",
    obj_vertices := logoBuffer "float32",
    normals := logoBuffer "float32",
    triangles := logoBuffer "int32",
    edges := logoBuffer "int32" }

/-- The `data.shapes` value returned by `logo()`
(`src/unnamed/part_002` lines 8-60): one part referencing instance 0
with state `[true, true]`, one instance of five placeholder buffers, and
a symmetric bounding box. -/
def logo : ShapesRec :=
  { parts := [logoPart],
    instances := [logoInstance],
    bb := { xmin := -10, xmax := 10, ymin := -10, ymax := 10,
            zmin := -10, zmax := 10 } }

/-- The five buffers of an instance record, in source order. -/
def InstanceRec.buffers (i : InstanceRec) : List BufferRec :=
  [i.vertices, i.obj_vertices, i.normals, i.triangles, i.edges]

/-! ## Example states used to evaluate the handlers -/

/-- A `Comms` state with an open socket, no queued messages and the
constructor's counter values. -/
def openState : CommsState :=
  { host := "localhost", port := 3939, ws := some { readyState := wsOPEN },
    reconnectAttempts := 0, maxReconnectAttempts := 5,
    reconnectDelay := 1000, messageQueue := [], isConnected := true }

/-- A `Comms` state whose socket is gone (`ws` null, `isConnected`
false), as after `close()` or before any connection. -/
def closedState : CommsState :=
  { host := "localhost", port := 3939, ws := none,
    reconnectAttempts := 0, maxReconnectAttempts := 5,
    reconnectDelay := 1000, messageQueue := [], isConnected := false }

/-- A state reaching `onopen` with two frames queued from the
disconnected period. -/
def queuedState : CommsState :=
  { closedState with
    ws := some { readyState := wsOPEN },
    messageQueue := [['a'], ['b']] }

/-- A state that has already failed four reconnect attempts. -/
def reconnState : CommsState :=
  { closedState with reconnectAttempts := 4 }

/-- The reconnect-counter invariant of the claim:
`reconnectAttempts ≤ maxReconnectAttempts` (the lower bound `0 ≤` holds
because the counter is a natural number). -/
def reconnectInv (s : CommsState) : Prop :=
  s.reconnectAttempts ≤ s.maxReconnectAttempts

/-! ## Claim theorems -/

/-- C1.  The claim states that `sendStatus(s)` transmits a single frame
consisting of the discriminator `U`, a separator and a present,
JSON-parseable payload.  Evaluated on an open connection at the status
text `ready`, the code transmits exactly the bare two-character frame
`U:`: `send` declares one parameter, so the stringified status object —
which is nonempty — is discarded at the call site and the frame's
payload substring (index 2 onward) is empty. -/
theorem c1_sendStatus_bare_frame :
    (Comms.sendStatus openState (String.data "ready")).2 = [['U', ':']] ∧
    (['U', ':'] : List Char).drop 2 = [] ∧
    (['U', ':'] : List Char).length = 2 ∧
    Comms.stringifyStatus (String.data "ready") ≠ [] := by
  decide

/-- C2.  A frame passed to `send` while the connection is not open is
appended to the message queue — neither transmitted nor discarded — and
the `onopen` handler of a state with an open socket transmits every
queued frame in first-in-first-out order (after the registration frame)
and leaves the queue empty. -/
theorem c2_queue_then_flush_fifo (s : CommsState) (m : List Char)
    (hnr : Comms.sendReady s = false)
    (t : CommsState) (ht : t.ws = some { readyState := wsOPEN }) :
    ((Comms.send s m).2 = [] ∧
      (Comms.send s m).1.messageQueue = s.messageQueue ++ [m]) ∧
    ((Comms.handleOpen t).2 = ['L', ':'] :: t.messageQueue ∧
      (Comms.handleOpen t).1.messageQueue = []) := by
  refine ⟨⟨?_, ?_⟩, ?_, ?_⟩
  · simp [Comms.send, hnr]
  · simp [Comms.send, hnr]
  · simp [Comms.handleOpen, Comms.sendTwoArg, Comms.send, Comms.sendReady, ht]
  · simp [Comms.handleOpen, Comms.sendTwoArg, Comms.send, Comms.sendReady, ht]

/-- Witness for C2 at a disconnected state and at an open state with two
queued frames. -/
theorem c2_queue_then_flush_fifo_witness :
    ((Comms.send closedState ['x']).2 = [] ∧
      (Comms.send closedState ['x']).1.messageQueue =
        closedState.messageQueue ++ [['x']]) ∧
    ((Comms.handleOpen queuedState).2 =
        ['L', ':'] :: queuedState.messageQueue ∧
      (Comms.handleOpen queuedState).1.messageQueue = []) :=
  c2_queue_then_flush_fifo closedState ['x'] (by decide) queuedState rfl

/-- C8.  On a successful open (the socket's ready state is `OPEN` when
`onopen` fires), the handler transmits the two-character registration
frame `L:` — whose payload substring is empty — strictly before every
queued frame, and when `L:` is not among the queued frames it is
transmitted exactly once. -/
theorem c8_register_before_queue (s : CommsState)
    (h : s.ws = some { readyState := wsOPEN }) :
    (Comms.handleOpen s).2 = ['L', ':'] :: s.messageQueue ∧
    (['L', ':'] : List Char).length = 2 ∧
    (['L', ':'] : List Char).drop 2 = [] ∧
    (['L', ':'] ∉ s.messageQueue →
      (Comms.handleOpen s).2.count ['L', ':'] = 1) := by
  have hout : (Comms.handleOpen s).2 = ['L', ':'] :: s.messageQueue := by
    simp [Comms.handleOpen, Comms.sendTwoArg, Comms.send, Comms.sendReady, h]
  refine ⟨hout, by decide, by decide, fun hm => ?_⟩
  rw [hout, List.count_cons_self, List.count_eq_zero.mpr hm]

/-- Witness for C8 at an open state with two queued frames. -/
theorem c8_register_before_queue_witness :
    (Comms.handleOpen queuedState).2 =
      ['L', ':'] :: queuedState.messageQueue ∧
    (['L', ':'] : List Char).length = 2 ∧
    (['L', ':'] : List Char).drop 2 = [] ∧
    (['L', ':'] ∉ queuedState.messageQueue →
      (Comms.handleOpen queuedState).2.count ['L', ':'] = 1) :=
  c8_register_before_queue queuedState rfl

/-- C9.  `send` writes to the socket exactly when `isConnected` is true,
`ws` is non-null and its ready state is `OPEN` (the guard `sendReady`);
in every other state the frame is queued and the state is otherwise
unchanged, and `send` is a total function (it never throws).  After
`close()` the guard is always false. -/
theorem c9_send_only_when_open (s : CommsState) (m : List Char) :
    (Comms.sendReady s = true ↔
      s.isConnected = true ∧ ∃ w, s.ws = some w ∧ w.readyState = wsOPEN) ∧
    (Comms.sendReady s = true →
      (Comms.send s m).2 = [m] ∧ (Comms.send s m).1 = s) ∧
    (Comms.sendReady s = false →
      (Comms.send s m).2 = [] ∧
      (Comms.send s m).1 =
        { s with messageQueue := s.messageQueue ++ [m] }) ∧
    Comms.sendReady (Comms.close s) = false := by
  refine ⟨?_, fun hr => ?_, fun hr => ?_, ?_⟩
  · cases hws : s.ws with
    | none => simp [Comms.sendReady, hws]
    | some w =>
      simp [Comms.sendReady, hws, Nat.beq_eq_true_eq, and_comm]
  · simp [Comms.send, hr]
  · simp [Comms.send, hr]
  · simp [Comms.sendReady, Comms.close]

/-- Witness for C9: on the open example state the frame goes to the
socket; on the closed example state it is queued. -/
theorem c9_send_only_when_open_witness :
    ((Comms.send openState ['x']).2 = [['x']] ∧
      (Comms.send openState ['x']).1 = openState) ∧
    ((Comms.send closedState ['x']).2 = [] ∧
      (Comms.send closedState ['x']).1 =
        { closedState with
            messageQueue := closedState.messageQueue ++ [['x']] }) :=
  ⟨(c9_send_only_when_open openState ['x']).2.1 (by decide),
   (c9_send_only_when_open closedState ['x']).2.2.1 (by decide)⟩

/-- Case analysis of `attemptReconnect`: below the maximum the counter
is incremented and one timer is armed; at the maximum nothing happens. -/
lemma attemptReconnect_cases (s : CommsState) :
    (s.reconnectAttempts < s.maxReconnectAttempts →
      Comms.attemptReconnect s =
        ({ s with reconnectAttempts := s.reconnectAttempts + 1 },
          some (s.reconnectDelay * (s.reconnectAttempts + 1)))) ∧
    (¬ s.reconnectAttempts < s.maxReconnectAttempts →
      Comms.attemptReconnect s = (s, none)) := by
  unfold Comms.attemptReconnect
  constructor <;> intro h <;> simp [h]

/-- Case analysis of the `onclose` handler: it clears `isConnected` and
then behaves like `attemptReconnect`. -/
lemma handleClose_cases (s : CommsState) :
    (s.reconnectAttempts < s.maxReconnectAttempts →
      Comms.handleClose s =
        ({ s with
           isConnected := false,
           reconnectAttempts := s.reconnectAttempts + 1 },
          some (s.reconnectDelay * (s.reconnectAttempts + 1)))) ∧
    (¬ s.reconnectAttempts < s.maxReconnectAttempts →
      Comms.handleClose s = ({ s with isConnected := false }, none)) := by
  unfold Comms.handleClose Comms.attemptReconnect
  constructor <;> intro h <;> simp [h]

/-- The `onopen` handler zeroes the reconnect counter and leaves the
maximum untouched, whichever way the registration send goes. -/
lemma handleOpen_counters (s : CommsState) :
    (Comms.handleOpen s).1.reconnectAttempts = 0 ∧
    (Comms.handleOpen s).1.maxReconnectAttempts =
      s.maxReconnectAttempts := by
  unfold Comms.handleOpen Comms.sendTwoArg Comms.send
  by_cases h :
      Comms.sendReady
        { s with isConnected := true, reconnectAttempts := 0 } = true
  · simp [h]
  · simp [h]

/-- C10.  On states with the constructor's constants
(`maxReconnectAttempts = 5`, `reconnectDelay = 1000`) satisfying
`reconnectAttempts ≤ 5`, every operation preserves the invariant (the
lower bound `0 ≤ reconnectAttempts` holds because the counter is a
natural number); `attemptReconnect` — reached from a connection loss
(`onclose`) or a failed connect — arms at most one timer (its optional
result), whose delay is the updated counter times 1000 milliseconds;
after the fifth failed attempt nothing further is scheduled and the
state is unchanged; and a successful open resets the counter to 0. -/
theorem c10_reconnect_invariant (s : CommsState)
    (hmax : s.maxReconnectAttempts = 5)
    (hdel : s.reconnectDelay = 1000)
    (hinv : reconnectInv s) :
    reconnectInv (Comms.attemptReconnect s).1 ∧
    reconnectInv (Comms.handleClose s).1 ∧
    reconnectInv (Comms.handleOpen s).1 ∧
    reconnectInv (Comms.handleError s) ∧
    reconnectInv (Comms.close s) ∧
    (∀ d, (Comms.attemptReconnect s).2 = some d →
      d = (Comms.attemptReconnect s).1.reconnectAttempts * 1000) ∧
    (∀ d, (Comms.handleClose s).2 = some d →
      d = (Comms.handleClose s).1.reconnectAttempts * 1000) ∧
    (s.reconnectAttempts = 5 →
      (Comms.attemptReconnect s).1 = s ∧
      (Comms.attemptReconnect s).2 = none) ∧
    (Comms.handleOpen s).1.reconnectAttempts = 0 := by
  have hA : s.reconnectAttempts ≤ s.maxReconnectAttempts := hinv
  have hAR := attemptReconnect_cases s
  have hHO := handleOpen_counters s
  have hHC := handleClose_cases s
  refine ⟨?_, ?_, ?_, hA, hA, ?_, ?_, ?_, hHO.1⟩
  · by_cases hlt : s.reconnectAttempts < s.maxReconnectAttempts
    · rw [hAR.1 hlt]
      exact hlt
    · rw [hAR.2 hlt]
      exact hA
  · by_cases hlt : s.reconnectAttempts < s.maxReconnectAttempts
    · rw [hHC.1 hlt]
      exact hlt
    · rw [hHC.2 hlt]
      exact hA
  · unfold reconnectInv
    rw [hHO.1, hHO.2]
    exact Nat.zero_le _
  · intro d hd
    by_cases hlt : s.reconnectAttempts < s.maxReconnectAttempts
    · rw [hAR.1 hlt] at hd ⊢
      simp only [Option.some.injEq] at hd
      simp [← hd, hdel, Nat.mul_comm]
    · rw [hAR.2 hlt] at hd
      simp at hd
  · intro d hd
    by_cases hlt : s.reconnectAttempts < s.maxReconnectAttempts
    · rw [hHC.1 hlt] at hd ⊢
      simp only [Option.some.injEq] at hd
      simp [← hd, hdel, Nat.mul_comm]
    · rw [hHC.2 hlt] at hd
      simp at hd
  · intro h5
    have hge : ¬ s.reconnectAttempts < s.maxReconnectAttempts := by
      omega
    rw [hAR.2 hge]
    exact ⟨rfl, rfl⟩

/-- Witness for C10 at a state with four failed attempts: the fifth
attempt is armed with delay 5 × 1000 ms and the invariant still holds. -/
theorem c10_reconnect_invariant_witness :
    reconnectInv (Comms.attemptReconnect reconnState).1 ∧
    (Comms.attemptReconnect reconnState).2 = some 5000 ∧
    (Comms.handleOpen reconnState).1.reconnectAttempts = 0 :=
  ⟨(c10_reconnect_invariant reconnState rfl rfl
      (by unfold reconnectInv; decide)).1,
   by decide,
   (c10_reconnect_invariant reconnState rfl rfl
      (by unfold reconnectInv; decide)).2.2.2.2.2.2.2.2⟩

/-- C5.  The framing layer defines exactly seven message kinds: the
seven discriminator characters are pairwise distinct, map to seven
pairwise distinct kind names, and every other character maps to
`unknown`; and on every incoming string of length at least two,
`parseMessage` returns the kind determined by the first character
together with the payload equal to the substring starting at index 2,
parsed as structured data when the parse succeeds and kept as raw text
otherwise. -/
theorem c5_seven_kinds_and_parse (J : Type) (jp : List Char → Option J)
    (d : List Char) (h2 : 2 ≤ d.length) :
    (['C', 'D', 'S', 'U', 'L', 'B', 'R'] : List Char).Nodup ∧
    (['C', 'D', 'S', 'U', 'L', 'B', 'R'].map Comms.getMessageType =
      ["command", "data", "config", "update", "listen", "backend",
       "response"]) ∧
    (["command", "data", "config", "update", "listen", "backend",
      "response"] : List String).Nodup ∧
    (∀ c, c ∉ (['C', 'D', 'S', 'U', 'L', 'B', 'R'] : List Char) →
      Comms.getMessageType c = "unknown") ∧
    (∃ m, Comms.parseMessage jp d = some m ∧
      m.kind = Comms.getMessageType (d.headD ' ') ∧
      ((∃ p, jp (d.drop 2) = some p ∧
          m = .json (Comms.getMessageType (d.headD ' ')) p) ∨
        (jp (d.drop 2) = none ∧
          m = .text (Comms.getMessageType (d.headD ' ')) (d.drop 2)))) := by
  refine ⟨by decide, by decide, by decide, ?_, ?_⟩
  · intro c hc
    simp only [List.mem_cons, List.not_mem_nil, or_false, not_or] at hc
    obtain ⟨h1, h2, h3, h4, h5, h6, h7⟩ := hc
    simp [Comms.getMessageType, h1, h2, h3, h4, h5, h6, h7]
  · match d, h2 with
    | t :: x :: content, _ =>
      cases hjp : jp content with
      | some p =>
        exact ⟨.json (Comms.getMessageType t) p,
          by simp [Comms.parseMessage, hjp], rfl,
          Or.inl ⟨p, by simpa using hjp, by simp⟩⟩
      | none =>
        exact ⟨.text (Comms.getMessageType t) content,
          by simp [Comms.parseMessage, hjp], rfl,
          Or.inr ⟨by simpa using hjp, by simp⟩⟩

/-- Witness for C5 on the concrete frame `C:1` with a parse that fails
on every input. -/
theorem c5_seven_kinds_and_parse_witness :
    (['C', 'D', 'S', 'U', 'L', 'B', 'R'] : List Char).Nodup ∧
    (['C', 'D', 'S', 'U', 'L', 'B', 'R'].map Comms.getMessageType =
      ["command", "data", "config", "update", "listen", "backend",
       "response"]) ∧
    (["command", "data", "config", "update", "listen", "backend",
      "response"] : List String).Nodup ∧
    (∀ c, c ∉ (['C', 'D', 'S', 'U', 'L', 'B', 'R'] : List Char) →
      Comms.getMessageType c = "unknown") ∧
    (∃ m, Comms.parseMessage Comms.jpNone (String.data "C:1") = some m ∧
      m.kind = Comms.getMessageType ((String.data "C:1").headD ' ') ∧
      ((∃ p, Comms.jpNone ((String.data "C:1").drop 2) = some p ∧
          m = .json (Comms.getMessageType ((String.data "C:1").headD ' '))
                p) ∨
        (Comms.jpNone ((String.data "C:1").drop 2) = none ∧
          m = .text (Comms.getMessageType ((String.data "C:1").headD ' '))
                ((String.data "C:1").drop 2)))) :=
  c5_seven_kinds_and_parse Unit Comms.jpNone (String.data "C:1")
    (by decide)

/-- C3, counterexample.  The claim states that a message with an
undefined discriminator is dropped and not forwarded to the viewer.  On
the concrete frame `X:1` — whose discriminator `X` is none of the seven
defined characters and indeed yields the `unknown` tag — the handler
posts the tagged message to the window, so the frame is forwarded, not
dropped (the connection does remain open). -/
theorem c3_unknown_forwarded_counterexample :
    Comms.getMessageType 'X' = "unknown" ∧
    (Comms.onmessage Comms.jpNone (String.data "X:1")).posted =
      [some (.text "unknown" ['1'])] ∧
    (Comms.onmessage Comms.jpNone (String.data "X:1")).posted ≠ [] ∧
    (Comms.onmessage Comms.jpNone (String.data "X:1")).closed = false := by
  decide

/-- C3, amended.  For every incoming message of length at least two
whose discriminator is not one of the seven defined characters, handling
yields the `unknown` type tag, and the message is forwarded to the
viewer carrying that tag — not dropped — while the connection remains
open. -/
theorem c3_unknown_kept_connection_open (J : Type)
    (jp : List Char → Option J) (d : List Char) (h2 : 2 ≤ d.length)
    (hx : d.headD ' ' ∉ (['C', 'D', 'S', 'U', 'L', 'B', 'R'] : List Char)) :
    ∃ m, (Comms.onmessage jp d).posted = [some m] ∧
      m.kind = "unknown" ∧
      (Comms.onmessage jp d).closed = false := by
  have hu : Comms.getMessageType (d.headD ' ') = "unknown" := by
    simp only [List.mem_cons, List.not_mem_nil, or_false, not_or] at hx
    obtain ⟨h1, h2, h3, h4, h5, h6, h7⟩ := hx
    unfold Comms.getMessageType
    rw [if_neg h1, if_neg h2, if_neg h3, if_neg h4, if_neg h5, if_neg h6,
      if_neg h7]
  match d, h2 with
  | t :: x :: content, _ =>
    simp only [List.headD_cons] at hu
    cases hjp : jp content with
    | some p =>
      exact ⟨.json (Comms.getMessageType t) p,
        by simp [Comms.onmessage, Comms.parseMessage, hjp],
        hu, rfl⟩
    | none =>
      exact ⟨.text (Comms.getMessageType t) content,
        by simp [Comms.onmessage, Comms.parseMessage, hjp],
        hu, rfl⟩

/-- Witness for the amended C3 on the concrete frame `X:1`. -/
theorem c3_unknown_kept_connection_open_witness :
    ∃ m, (Comms.onmessage Comms.jpNone (String.data "X:1")).posted =
        [some m] ∧
      m.kind = "unknown" ∧
      (Comms.onmessage Comms.jpNone (String.data "X:1")).closed = false :=
  c3_unknown_kept_connection_open Unit Comms.jpNone (String.data "X:1")
    (by decide) (by decide)

/-- C4, counterexample.  The claim states that a non-REGISTER message
whose payload fails to parse as structured data is dropped and not
delivered onward.  On the concrete frame `C:hi` with a parse that fails
on every input, the handler wraps the raw payload as a text message and
posts it to the window — delivered onward, not dropped (the connection
does remain open). -/
theorem c4_text_forwarded_counterexample :
    (Comms.onmessage Comms.jpNone (String.data "C:hi")).posted =
      [some (.text "command" ['h', 'i'])] ∧
    (Comms.onmessage Comms.jpNone (String.data "C:hi")).posted ≠ [] ∧
    (Comms.onmessage Comms.jpNone (String.data "C:hi")).closed = false := by
  decide

/-- C4, amended.  A message of length at least two whose payload fails
to parse is not flagged as malformed: the raw payload is wrapped as
`{type, text: content}` and forwarded to the viewer; a message shorter
than two characters parses to null, which is likewise posted; in both
cases the connection remains open. -/
theorem c4_unparseable_wrapped_as_text (J : Type)
    (jp : List Char → Option J) (d : List Char) :
    (2 ≤ d.length → jp (d.drop 2) = none →
      (Comms.onmessage jp d).posted =
        [some (.text (Comms.getMessageType (d.headD ' ')) (d.drop 2))] ∧
      (Comms.onmessage jp d).closed = false) ∧
    (d.length < 2 →
      (Comms.onmessage jp d).posted = [none] ∧
      (Comms.onmessage jp d).closed = false) := by
  constructor
  · intro h2 hfail
    match d, h2 with
    | t :: x :: content, _ =>
      simp only [List.drop_succ_cons, List.drop_zero] at hfail
      exact ⟨by simp [Comms.onmessage, Comms.parseMessage, hfail], rfl⟩
  · intro hlt
    match d, hlt with
    | [], _ => exact ⟨rfl, rfl⟩
    | [t], _ => exact ⟨rfl, rfl⟩

/-- Witness for the amended C4 on the concrete frames `C:hi` and `C`. -/
theorem c4_unparseable_wrapped_as_text_witness :
    ((Comms.onmessage Comms.jpNone (String.data "C:hi")).posted =
        [some (.text (Comms.getMessageType
          ((String.data "C:hi").headD ' '))
          ((String.data "C:hi").drop 2))] ∧
      (Comms.onmessage Comms.jpNone (String.data "C:hi")).closed =
        false) ∧
    ((Comms.onmessage Comms.jpNone (String.data "C")).posted = [none] ∧
      (Comms.onmessage Comms.jpNone (String.data "C")).closed = false) :=
  ⟨(c4_unparseable_wrapped_as_text Unit Comms.jpNone
      (String.data "C:hi")).1 (by decide) rfl,
   (c4_unparseable_wrapped_as_text Unit Comms.jpNone
      (String.data "C")).2 (by decide)⟩

/-- C6, counterexample.  The claim states that each of the five buffers
of the `logo` Instance Table (base64 payload `AQAAAAAA`) has a decoded
byte length that is an exact multiple of 4 and decodes without
`MalformedBuffer`.  In fact the eight base64 characters decode to six
bytes, `6 % 4 = 2 ≠ 0`, so each of the five buffers fails with
`MalformedBuffer` under the spec's validation. -/
theorem c6_logo_buffers_counterexample :
    logo.instances = [logoInstance] ∧
    b64Decode logoInstance.vertices.buffer = some [1, 0, 0, 0, 0, 0] ∧
    (6 : Nat) % 4 = 2 ∧
    decodeBuffer logoInstance.vertices.dtype
      logoInstance.vertices.buffer = .malformedBuffer ∧
    decodeBuffer logoInstance.obj_vertices.dtype
      logoInstance.obj_vertices.buffer = .malformedBuffer ∧
    decodeBuffer logoInstance.normals.dtype
      logoInstance.normals.buffer = .malformedBuffer ∧
    decodeBuffer logoInstance.triangles.dtype
      logoInstance.triangles.buffer = .malformedBuffer ∧
    decodeBuffer logoInstance.edges.dtype
      logoInstance.edges.buffer = .malformedBuffer := by
  decide

/-- C6, amended.  For every encoded buffer declaring element type
`float32` or `int32` (element size 4), decoding accepts the buffer
exactly when its decoded byte length is a multiple of 4 and fails with
`MalformedBuffer` otherwise; each of the five buffers in the `logo`
Instance Table decodes to six bytes — not a multiple of 4 — and
therefore fails with `MalformedBuffer`. -/
theorem c6_buffer_validation (dtype : String) (buf : List Char)
    (bytes : List Nat) (hsz : elementSize dtype = some 4)
    (hdec : b64Decode buf = some bytes) :
    (decodeBuffer dtype buf = .ok bytes ↔ bytes.length % 4 = 0) ∧
    (decodeBuffer dtype buf = .malformedBuffer ↔
      ¬ bytes.length % 4 = 0) ∧
    (∀ b ∈ logoInstance.buffers,
      b64Decode b.buffer = some [1, 0, 0, 0, 0, 0] ∧
      decodeBuffer b.dtype b.buffer = .malformedBuffer) := by
  refine ⟨?_, ?_, by decide⟩ <;>
    · unfold decodeBuffer
      rw [hsz, hdec]
      by_cases h : bytes.length % 4 = 0
      · simp [h]
      · simp [h]

/-- Witness for the amended C6 at the `logo` vertices buffer. -/
theorem c6_buffer_validation_witness :
    (decodeBuffer "float32" (String.data "AQAAAAAA") =
        .ok [1, 0, 0, 0, 0, 0] ↔
      ([1, 0, 0, 0, 0, 0] : List Nat).length % 4 = 0) ∧
    (decodeBuffer "float32" (String.data "AQAAAAAA") =
        .malformedBuffer ↔
      ¬ ([1, 0, 0, 0, 0, 0] : List Nat).length % 4 = 0) ∧
    (∀ b ∈ logoInstance.buffers,
      b64Decode b.buffer = some [1, 0, 0, 0, 0, 0] ∧
      decodeBuffer b.dtype b.buffer = .malformedBuffer) :=
  c6_buffer_validation "float32" (String.data "AQAAAAAA")
    [1, 0, 0, 0, 0, 0] rfl (by decide)

/-- C7.  In the `logo` scene payload every shape reference resolves
within the bounds of the payload's own instance table, the sole part
carries reference 0, the instances array has length one, and every part
carries a visibility state of exactly two booleans. -/
theorem c7_logo_refs_in_bounds (p : PartRec) (hp : p ∈ logo.parts) :
    p.ref < logo.instances.length ∧
    p.state.length = 2 ∧
    logo.parts.length = 1 ∧
    logo.instances.length = 1 ∧
    (∀ q ∈ logo.parts, q.ref = 0 ∧ q.state = [true, true]) := by
  have hone : logo.parts = [logoPart] := rfl
  rw [hone, List.mem_singleton] at hp
  subst hp
  refine ⟨by decide, by decide, by decide, by decide, ?_⟩
  intro q hq
  rw [hone, List.mem_singleton] at hq
  subst hq
  exact ⟨rfl, rfl⟩

/-- Witness for C7 at the sole part of the `logo` payload. -/
theorem c7_logo_refs_in_bounds_witness :
    logoPart.ref < logo.instances.length ∧
    logoPart.state.length = 2 ∧
    logo.parts.length = 1 ∧
    logo.instances.length = 1 ∧
    (∀ q ∈ logo.parts, q.ref = 0 ∧ q.state = [true, true]) :=
  c7_logo_refs_in_bounds logoPart (by decide)
